import Mathlib

/-!
# Verification of the songy-wongy credit / music-generation subsystem

Shallow embedding of the Ledger (CreditsService), Job Orchestrator
(MusicGeneratorService.requestMusicGeneration), Worker/Processor
(MusicGenerationProcessor), Failure/Refund Handler
(MusicGenerationProcessor.handleGenerationFailure), queue listener
(MusicGenerationListener) and Status query (getMusicStatus /
getDownloadUrl), together with proofs about the claims of the
natural-language specification.

Database rows are modelled as lists of records.  Every credit amount the
modelled flows read or write is a whole number of credits (each one is a
`Math.ceil` result, its negation, a sum of such, or `0`), so the
`DECIMAL(10,4)` money columns are modelled as `ℤ`; the pricing-tier rate
`creditsPerMinute`, which enters a rational cost formula, is modelled as
`ℚ`.  Each service method becomes a pure function from a `DbState` to a
`DbState` (and an `Except` result where the method can throw).
-/

namespace SongyWongy

/-- `Music.status` (and the job state machine): GENERATING → COMPLETED | FAILED. -/
inductive MusicStatus where
  | GENERATING
  | COMPLETED
  | FAILED
deriving DecidableEq, Repr

/-- `TransactionType` enum from the credit-system migration. -/
inductive TransactionType where
  | PURCHASE
  | DEDUCTION
  | REFUND
  | TRIAL
deriving DecidableEq, Repr

/-- `TransactionStatus` enum from the credit-system migration. -/
inductive TransactionStatus where
  | PENDING
  | COMPLETED
  | FAILED
  | CANCELLED
deriving DecidableEq, Repr

/-- `AIProvider` enum from the credit-system migration. -/
inductive AIProvider where
  | ELEVENLABS
  | SELFHOSTED
deriving DecidableEq, Repr

/-- A row of the `Transaction` table (the fields the modelled flows touch). -/
structure Transaction where
  userId : String
  type : TransactionType
  amount : ℤ
  description : String
  status : TransactionStatus
deriving DecidableEq, Repr

/-- A row of the `User` table (the fields the modelled flows touch). -/
structure User where
  id : String
  clerkId : String
  creditBalance : ℤ
deriving DecidableEq, Repr

/-- A row of the `Music` table (the fields the modelled flows touch;
timestamps are omitted). -/
structure Music where
  id : String
  userId : String
  name : String
  prompt : String
  lengthMs : Nat
  status : MusicStatus
  creditsUsed : ℤ
  audioUrl : Option String
deriving DecidableEq, Repr

/-- A row of the `PricingTier` table. -/
structure PricingTier where
  provider : AIProvider
  creditsPerMinute : ℚ
  isActive : Bool
  isDefault : Bool
deriving DecidableEq, Repr

/-- The relational state the modelled services read and write. -/
structure DbState where
  users : List User
  transactions : List Transaction
  musics : List Music
  pricingTiers : List PricingTier
deriving DecidableEq, Repr

/-- JavaScript `x || d` for an optional number: `undefined` and `0` are falsy. -/
def jsOrNum (x : Option Nat) (d : Nat) : Nat :=
  match x with
  | none => d
  | some v => if v = 0 then d else v

/-- `Math.ceil (a / b)` for natural `a`, `b` (with `b > 0`). -/
def jsCeilDiv (a b : Nat) : Nat :=
  (a + b - 1) / b

/-- `UsersService.getUserByClerkId`: `prisma.user.findUnique({ where: { clerkId } })`,
throwing when absent. -/
def getUserByClerkId (s : DbState) (clerkId : String) : Except String User :=
  match s.users.find? (fun u => u.clerkId = clerkId) with
  | none => .error ("User not found for clerkId: " ++ clerkId)
  | some u => .ok u

/-- The `GenerateMusicDto` options accepted by `requestMusicGeneration`. -/
structure GenerateMusicDto where
  name : String
  prompt : String
  lengthMs : Option Nat
  outputFormat : Option String
  modelId : Option String
deriving DecidableEq, Repr

/-- The `MusicGenerationRequestResponse` returned by `requestMusicGeneration`
(`createdAt` timestamp omitted). -/
structure MusicGenerationRequestResponse where
  musicId : String
  name : String
  prompt : String
  status : MusicStatus
  lengthMs : Nat
deriving DecidableEq, Repr

/-- `MusicGeneratorService.requestMusicGeneration`: resolves the user by
`clerkId`, computes `estimatedCredits = Math.ceil((options.lengthMs || 10000) / 60000)`
from the hardcoded 1-credit-per-minute constant, creates the `Music` row with
status `GENERATING`, and returns the response.  Per the source's TODO, no
balance check is made, no DEDUCTION transaction is inserted, and the cached
balance is not decremented.  `freshId` stands for the id generated for the
new row by the database. -/
def requestMusicGeneration (s : DbState) (options : GenerateMusicDto)
    (clerkId : String) (freshId : String) :
    Except String (DbState × MusicGenerationRequestResponse) :=
  match getUserByClerkId s clerkId with
  | .error e => .error e
  | .ok user =>
    let estimatedCredits : Nat := jsCeilDiv (jsOrNum options.lengthMs 10000) 60000
    let musicRecord : Music :=
      { id := freshId
        userId := user.id
        name := options.name
        prompt := options.prompt
        lengthMs := jsOrNum options.lengthMs 10000
        status := .GENERATING
        creditsUsed := (estimatedCredits : ℤ)
        audioUrl := none }
    let s' : DbState := { s with musics := s.musics ++ [musicRecord] }
    .ok (s',
      { musicId := freshId
        name := musicRecord.name
        prompt := musicRecord.prompt
        status := .GENERATING
        lengthMs := musicRecord.lengthMs })

/-- The `MusicStatusResponse` returned by `getMusicStatus`
(timestamps omitted). -/
structure MusicStatusResponse where
  musicId : String
  name : String
  prompt : String
  status : MusicStatus
  lengthMs : Nat
  audioUrl : Option String
deriving DecidableEq, Repr

/-- `music.audioUrl || null`: an empty string is falsy and becomes `null`. -/
def jsOrNullStr (x : Option String) : Option String :=
  match x with
  | none => none
  | some v => if v = "" then none else some v

/-- `MusicGeneratorService.getMusicStatus`: resolves the user by `clerkId`,
then `prisma.music.findFirst({ where: { id: musicId, userId: user.id } })`;
throws `Music record not found` when no row matches both the id and the
caller's user id. -/
def getMusicStatus (s : DbState) (musicId clerkId : String) :
    Except String MusicStatusResponse :=
  match getUserByClerkId s clerkId with
  | .error e => .error e
  | .ok user =>
    match s.musics.find? (fun m => m.id = musicId ∧ m.userId = user.id) with
    | none => .error "Music record not found"
    | some music =>
      .ok
        { musicId := music.id
          name := music.name
          prompt := music.prompt
          status := music.status
          lengthMs := music.lengthMs
          audioUrl := jsOrNullStr music.audioUrl }

/-! ## Ledger: CreditsService -/

/-- The payload of `InsufficientCreditsException`: `details` carries
`required`, `available` and `shortfall = required - available`. -/
structure InsufficientCreditsDetails where
  required : ℤ
  available : ℤ
  shortfall : ℤ
deriving DecidableEq, Repr

/-- `new InsufficientCreditsException(required, available)`. -/
def insufficientCreditsException (required available : ℤ) :
    InsufficientCreditsDetails :=
  { required := required
    available := available
    shortfall := required - available }

/-- The errors a `CreditsService` call can throw. -/
inductive CreditsError where
  | userNotFound
  | insufficientCredits (details : InsufficientCreditsDetails)
  | noPricingTier (provider : AIProvider)
deriving DecidableEq, Repr

/-- `CreditsService.checkBalance`. -/
def checkBalance (s : DbState) (userId : String) : Except CreditsError ℤ :=
  match s.users.find? (fun u => u.id = userId) with
  | none => .error .userNotFound
  | some u => .ok u.creditBalance

/-- `CreditsService.calculateCreditsNeeded`: looks up the active default
`PricingTier` for the provider and returns
`Math.ceil(lengthMs / 60000 × creditsPerMinute)`. -/
def calculateCreditsNeeded (s : DbState) (lengthMs : Nat)
    (provider : AIProvider) : Except CreditsError ℤ :=
  match s.pricingTiers.find?
      (fun t => t.provider = provider ∧ t.isDefault ∧ t.isActive) with
  | none => .error (.noPricingTier provider)
  | some pricingTier =>
    .ok ⌈((lengthMs : ℚ) / 60000) * pricingTier.creditsPerMinute⌉

/-- `prisma.user.update` with `creditBalance: { increment: delta }` (or a
decrement, passing a negative `delta`). -/
def updateUserBalance (users : List User) (userId : String) (delta : ℤ) :
    List User :=
  users.map (fun u =>
    if u.id = userId then { u with creditBalance := u.creditBalance + delta }
    else u)

/-- `CreditsService.deductCredits`: atomic transaction — re-read the balance,
fail `InsufficientCreditsException` when `balance < creditsNeeded`, insert a
COMPLETED DEDUCTION transaction with a negative amount, and decrement the
cached balance. -/
def deductCredits (s : DbState) (userId : String) (creditsNeeded : ℤ)
    (description : String) : Except CreditsError (DbState × Transaction) :=
  match s.users.find? (fun u => u.id = userId) with
  | none => .error .userNotFound
  | some userWithBalance =>
    let currentBalance := userWithBalance.creditBalance
    if currentBalance < creditsNeeded then
      .error (.insufficientCredits
        (insufficientCreditsException creditsNeeded currentBalance))
    else
      let transaction : Transaction :=
        { userId := userId
          type := .DEDUCTION
          amount := -creditsNeeded
          description := description
          status := .COMPLETED }
      .ok ({ s with
              transactions := s.transactions ++ [transaction]
              users := updateUserBalance s.users userId (-creditsNeeded) },
           transaction)

/-- `CreditsService.refundCredits`: atomic transaction — insert a COMPLETED
REFUND transaction with a positive amount and increment the cached balance. -/
def refundCredits (s : DbState) (userId : String) (creditsToRefund : ℤ)
    (description : String) : DbState :=
  let transaction : Transaction :=
    { userId := userId
      type := .REFUND
      amount := creditsToRefund
      description := description
      status := .COMPLETED }
  { s with
    transactions := s.transactions ++ [transaction]
    users := updateUserBalance s.users userId creditsToRefund }

/-! ## Worker/Processor: MusicGenerationProcessor -/

/-- `MusicGenerationProcessor.updateMusicStatus`: `prisma.music.update` of the
`status` field only; any error is caught and swallowed (so a missing row is a
no-op). -/
def updateMusicStatus (s : DbState) (musicId : String) (status : MusicStatus) :
    DbState :=
  { s with
    musics := s.musics.map (fun m =>
      if m.id = musicId then { m with status := status } else m) }

/-- The first database write of `MusicGenerationProcessor.generateMusic`:
unconditionally `updateMusicStatus(musicId, 'GENERATING')`, before the
long-running provider call. -/
def beginProcessing (s : DbState) (musicId : String) : DbState :=
  updateMusicStatus s musicId .GENERATING

/-- The final database write of `MusicGenerationProcessor.generateMusic` on a
successful provider call: `prisma.music.update` setting `audioUrl` to the S3
URL and `status` to COMPLETED. -/
def completeProcessing (s : DbState) (musicId : String) (s3Url : String) :
    DbState :=
  { s with
    musics := s.musics.map (fun m =>
      if m.id = musicId then
        { m with audioUrl := some s3Url, status := .COMPLETED }
      else m) }

/-- `MusicGenerationProcessor.handleGenerationFailure`: resolve the user by
`clerkId`, then in one atomic transaction read the `Music` row; a missing row
or an already-FAILED row is a no-op; otherwise refund `creditsUsed` when it is
positive, set `status = FAILED` and `creditsUsed = 0`.  All errors (including
a failed user lookup) are caught and swallowed. -/
def handleGenerationFailure (s : DbState) (musicId clerkId : String) :
    DbState :=
  match getUserByClerkId s clerkId with
  | .error _ => s
  | .ok user =>
    match s.musics.find? (fun m => m.id = musicId) with
    | none => s
    | some music =>
      if music.status = .FAILED then s
      else
        let creditsToRefund := music.creditsUsed
        let s1 :=
          if 0 < creditsToRefund then
            refundCredits s user.id creditsToRefund
              ("Refund for failed generation: " ++ music.name)
          else s
        { s1 with
          musics := s1.musics.map (fun m =>
            if m.id = musicId then
              { m with status := .FAILED, creditsUsed := 0 }
            else m) }

/-- The retry-relevant fields of BullMQ job options. -/
structure JobOpts where
  attempts : Nat
  backoffType : String
  backoffDelayMs : Nat
deriving DecidableEq, Repr

/-- `DEFAULT_MUSIC_GENERATION_JOB_OPTIONS` from `queue.constants.ts`:
`attempts: 2`, exponential backoff with a `30 * 1000` ms base delay. -/
def DEFAULT_MUSIC_GENERATION_JOB_OPTIONS : JobOpts :=
  { attempts := 2
    backoffType := "exponential"
    backoffDelayMs := 30 * 1000 }

/-- `MusicGenerationProcessor.process`'s final-attempt test:
`job.attemptsMade + 1 >= (job.opts.attempts ?? 1)`. -/
def isFinalAttempt (attemptsMade attempts : Nat) : Bool :=
  attemptsMade + 1 ≥ attempts

/-- The catch branch of `MusicGenerationProcessor.process` on a provider
failure: the Failure Handler runs only when the attempt is final; a non-final
attempt changes nothing (the error is rethrown for BullMQ to retry). -/
def processFailure (s : DbState) (musicId clerkId : String)
    (attemptsMade attempts : Nat) : DbState :=
  if isFinalAttempt attemptsMade attempts then
    handleGenerationFailure s musicId clerkId
  else s

/-- One whole failed processing attempt: `generateMusic` first sets the status
to GENERATING, the provider call then fails, and the catch branch of `process`
runs with the given attempt counters. -/
def failedAttempt (s : DbState) (musicId clerkId : String)
    (attemptsMade attempts : Nat) : DbState :=
  processFailure (beginProcessing s musicId) musicId clerkId
    attemptsMade attempts

/-! ## Queue listener: MusicGenerationListener -/

/-- The `GenerateMusicJobData` payload queued for the worker. -/
structure GenerateMusicJobData where
  musicId : String
  userId : String
  name : String
  prompt : String
  lengthMs : Option Nat
deriving DecidableEq, Repr

/-- A queued BullMQ job: the caller-chosen `jobId` key plus its payload. -/
structure QueueJob where
  jobId : String
  data : GenerateMusicJobData
deriving DecidableEq, Repr

/-- The music-generation queue's pending jobs. -/
structure MusicQueue where
  jobs : List QueueJob
deriving DecidableEq, Repr

/-- Modelled from the spec: the BullMQ queue collaborator's `add` (the BullMQ
library itself is not part of this repository).  Per the spec, the queue is
"keyed by job id (at-least-once delivery)" and "a duplicate publish for an
existing job id is detected" at queue level; BullMQ signals the duplicate to
the caller with an error whose `code` is `BULLMQDuplicateJob`, which is what
the listener's catch branch matches on. -/
def queueAdd (q : MusicQueue) (jobId : String) (data : GenerateMusicJobData) :
    Except String MusicQueue :=
  if q.jobs.any (fun j => j.jobId = jobId) then .error "BULLMQDuplicateJob"
  else .ok { jobs := q.jobs ++ [{ jobId := jobId, data := data }] }

/-- `MusicGenerationListener.handleMusicGenerationRequested`: adds the job
with `jobId = "music-" ++ musicId`; an error with code `BULLMQDuplicateJob` is
caught and logged (the duplicate is skipped, nothing is rethrown); any other
error is rethrown. -/
def handleMusicGenerationRequested (q : MusicQueue)
    (data : GenerateMusicJobData) : Except String MusicQueue :=
  match queueAdd q ("music-" ++ data.musicId) data with
  | .ok q' => .ok q'
  | .error e => if e = "BULLMQDuplicateJob" then .ok q else .error e

/-! ## Status query: getDownloadUrl -/

/-- The `MusicDownloadResponse` returned by `getDownloadUrl`. -/
structure MusicDownloadResponse where
  downloadUrl : String
  expiresIn : Nat
  fileName : String
deriving DecidableEq, Repr

/-- Whether `pat` occurs at the head of `l`. -/
def startsWithSeq (pat l : List Char) : Bool :=
  match pat, l with
  | [], _ => true
  | _ :: _, [] => false
  | p :: ps, c :: cs => p = c && startsWithSeq ps cs

/-- Splits `l` at the first occurrence of `pat`: the part before it and the
part after it (the occurrence itself dropped); `none` when `pat` does not
occur. -/
def breakOnFirst (pat l : List Char) : Option (List Char × List Char) :=
  match l with
  | [] => if startsWithSeq pat [] then some ([], []) else none
  | c :: cs =>
    if startsWithSeq pat (c :: cs) then some ([], (c :: cs).drop pat.length)
    else
      match breakOnFirst pat cs with
      | none => none
      | some (pre, post) => some (c :: pre, post)

/-- `new URL(str)` reduced to the two components `getDownloadUrl` reads: the
hostname (the part between `://` and the first `/`) and the pathname (from
that first `/` on, empty when there is no path).  A string without a `://`
part makes the constructor throw, modelled as `none`. -/
def parseUrl (url : String) : Option (String × String) :=
  match breakOnFirst "://".toList url.toList with
  | none => none
  | some (_, rest) =>
    match breakOnFirst ['/'] rest with
    | none => some (String.mk rest, "")
    | some (host, path) => some (String.mk host, String.mk ('/' :: path))

/-- JavaScript `s.replace(pat, rep)` with a plain-string pattern: replaces
only the first occurrence. -/
def replaceFirst (s pat rep : String) : String :=
  match breakOnFirst pat.toList s.toList with
  | none => s
  | some (pre, post) => String.mk pre ++ rep ++ String.mk post

/-- JavaScript `s.replace(/_/g, ' ')`: every underscore becomes a space. -/
def underscoresToSpaces (s : String) : String :=
  String.mk (s.toList.map (fun c => if c = '_' then ' ' else c))

/-- `hostname.split('.')[0]`: the characters before the first dot. -/
def firstDotComponent (hostname : String) : String :=
  match breakOnFirst ['.'] hostname.toList with
  | none => hostname
  | some (pre, _) => String.mk pre

/-- `key.split('/').pop()`: the characters after the last slash (the whole
string when it has no slash). -/
def lastSlashComponent (key : String) : String :=
  match breakOnFirst ['/'] key.toList.reverse with
  | none => key
  | some (revLast, _) => String.mk revLast.reverse

/-- `MusicGeneratorService.getDownloadUrl`: fetches the record through
`getMusicStatus` (which enforces ownership), requires status COMPLETED and a
set `audioUrl`, extracts bucket and key from the URL, and returns a presigned
URL with a 3600-second expiry.  The S3 presigner collaborator is passed in as
`presign bucket key expiresIn`. -/
def getDownloadUrl (presign : String → String → Nat → String) (s : DbState)
    (musicId clerkId : String) : Except String MusicDownloadResponse :=
  match getMusicStatus s musicId clerkId with
  | .error e => .error e
  | .ok music =>
    if music.status ≠ .COMPLETED then
      .error "Music file is not ready for download"
    else
      match music.audioUrl with
      | none => .error "Music file URL not found"
      | some audioUrl =>
        match parseUrl audioUrl with
        | none => .error "Invalid URL"
        | some (hostname, pathname) =>
          let bucket := firstDotComponent hostname
          let key := String.mk (pathname.toList.drop 1)
          let downloadUrl := presign bucket key 3600
          let popped := lastSlashComponent key
          let fileName := if popped = "" then "music.mp3" else popped
          let friendlyFileName :=
            replaceFirst (underscoresToSpaces fileName) ".mp3" "" ++ ".mp3"
          .ok
            { downloadUrl := downloadUrl
              expiresIn := 3600
              fileName := friendlyFileName }

/-! ## The observable transitions of the subsystem -/

/-- One observable transition of the database state: a successful submission,
either worker write of a processing attempt, the catch branch of `process`,
or a direct invocation of the Failure Handler (redelivered failure signal). -/
inductive Step : DbState → DbState → Prop where
  | submit (s : DbState) (options : GenerateMusicDto) (clerkId freshId : String)
      (s' : DbState) (resp : MusicGenerationRequestResponse)
      (h : requestMusicGeneration s options clerkId freshId = .ok (s', resp)) :
      Step s s'
  | begin (s : DbState) (musicId : String) :
      Step s (beginProcessing s musicId)
  | complete (s : DbState) (musicId s3Url : String) :
      Step s (completeProcessing s musicId s3Url)
  | fail (s : DbState) (musicId clerkId : String) (attemptsMade attempts : Nat) :
      Step s (processFailure s musicId clerkId attemptsMade attempts)
  | handleFail (s : DbState) (musicId clerkId : String) :
      Step s (handleGenerationFailure s musicId clerkId)

/-- Reachability: zero or more `Step` transitions. -/
inductive Reachable : DbState → DbState → Prop where
  | refl (s : DbState) : Reachable s s
  | tail {s t u : DbState} : Reachable s t → Step t u → Reachable s u

/-- The cached balance of each user row equals the sum of the amounts of that
user's COMPLETED transactions. -/
def completedSum (s : DbState) (userId : String) : ℤ :=
  ((s.transactions.filter
      (fun t => t.userId = userId ∧ t.status = .COMPLETED)).map
    (fun t => t.amount)).sum

/-- Spec invariant 1: `cachedBalance(user) == Σ amount` over that user's
COMPLETED transactions. -/
def LedgerInvariant (s : DbState) : Prop :=
  ∀ u ∈ s.users, u.creditBalance = completedSum s u.id

instance (s : DbState) : Decidable (LedgerInvariant s) := by
  unfold LedgerInvariant
  infer_instance

/-- Spec invariant 3: a FAILED job always has `creditsUsed == 0`. -/
def FailedZero (s : DbState) : Prop :=
  ∀ m ∈ s.musics, m.status = .FAILED → m.creditsUsed = 0

instance (s : DbState) : Decidable (FailedZero s) := by
  unfold FailedZero
  infer_instance

/-- The status of the music row with the given id, if any. -/
def statusOf (s : DbState) (musicId : String) : Option MusicStatus :=
  (s.musics.find? (fun m => m.id = musicId)).map (fun m => m.status)

/-! ## Helper lemmas -/

/-- A state change that keeps the user rows and the transaction log keeps
the ledger invariant. -/
theorem ledgerInvariant_congr {s s' : DbState} (hu : s'.users = s.users)
    (ht : s'.transactions = s.transactions) (h : LedgerInvariant s) :
    LedgerInvariant s' := by
  intro u hm
  rw [hu] at hm
  unfold completedSum
  rw [ht]
  exact h u hm

/-- `refundCredits` adds exactly `r` to the COMPLETED sum of the refunded
user and nothing to anyone else's. -/
theorem completedSum_refund (s : DbState) (uid : String) (r : ℤ) (d x : String) :
    completedSum (refundCredits s uid r d) x =
      completedSum s x + (if uid = x then r else 0) := by
  by_cases h : uid = x <;>
    simp [completedSum, refundCredits, List.filter_append, h]

/-- `refundCredits` preserves the ledger invariant: the one COMPLETED REFUND
row it appends matches the one cached-balance increment it performs. -/
theorem ledgerInvariant_refund {s : DbState} (uid : String) (r : ℤ) (d : String)
    (h : LedgerInvariant s) : LedgerInvariant (refundCredits s uid r d) := by
  intro u hm
  have hm' : u ∈ updateUserBalance s.users uid r := hm
  unfold updateUserBalance at hm'
  rw [List.mem_map] at hm'
  obtain ⟨u0, hu0, rfl⟩ := hm'
  rw [completedSum_refund]
  by_cases hid : u0.id = uid
  · simp only [hid, if_pos rfl]
    simp [hid.symm, h u0 hu0]
  · simp only [if_neg hid]
    have : ¬(uid = u0.id) := fun hx => hid hx.symm
    simp [this, h u0 hu0]

/-- `handleGenerationFailure` preserves the ledger invariant. -/
theorem ledgerInvariant_handleFailure {s : DbState} (musicId clerkId : String)
    (h : LedgerInvariant s) :
    LedgerInvariant (handleGenerationFailure s musicId clerkId) := by
  unfold handleGenerationFailure
  cases hg : getUserByClerkId s clerkId with
  | error e => exact h
  | ok user =>
    cases hf : s.musics.find? (fun m => m.id = musicId) with
    | none => exact h
    | some music =>
      by_cases hst : music.status = .FAILED
      · simp only [hst, if_pos rfl]
        exact h
      · simp only [if_neg hst]
        by_cases hr : (0 : ℤ) < music.creditsUsed
        · simp only [if_pos hr]
          exact ledgerInvariant_congr rfl rfl
            (ledgerInvariant_refund user.id music.creditsUsed _ h)
        · simp only [if_neg hr]
          exact ledgerInvariant_congr rfl rfl h

/-- Characterization of a successful `requestMusicGeneration`: the user
resolves, the new `Music` row is appended, and the response echoes it. -/
theorem requestMusicGeneration_ok_iff (s : DbState) (o : GenerateMusicDto)
    (c f : String) (s' : DbState) (r : MusicGenerationRequestResponse) :
    requestMusicGeneration s o c f = .ok (s', r) ↔
    ∃ user, getUserByClerkId s c = .ok user ∧
      s' = { s with musics := s.musics ++
        [{ id := f
           userId := user.id
           name := o.name
           prompt := o.prompt
           lengthMs := jsOrNum o.lengthMs 10000
           status := .GENERATING
           creditsUsed := (jsCeilDiv (jsOrNum o.lengthMs 10000) 60000 : ℤ)
           audioUrl := none }] } ∧
      r = { musicId := f
            name := o.name
            prompt := o.prompt
            status := .GENERATING
            lengthMs := jsOrNum o.lengthMs 10000 } := by
  unfold requestMusicGeneration
  cases hg : getUserByClerkId s c with
  | error e => simp
  | ok user =>
    simp only [Except.ok.injEq, Prod.mk.injEq]
    constructor
    · rintro ⟨hs, hr⟩
      exact ⟨user, rfl, hs.symm, hr.symm⟩
    · rintro ⟨user', huser', hs, hr⟩
      cases huser'
      exact ⟨hs.symm, hr.symm⟩

/-- A successful submission keeps the user rows and the transaction log. -/
theorem requestMusicGeneration_ok_frame {s : DbState} {o : GenerateMusicDto}
    {c f : String} {s' : DbState} {r : MusicGenerationRequestResponse}
    (h : requestMusicGeneration s o c f = .ok (s', r)) :
    s'.users = s.users ∧ s'.transactions = s.transactions := by
  rw [requestMusicGeneration_ok_iff] at h
  obtain ⟨user, _, rfl, _⟩ := h
  exact ⟨rfl, rfl⟩

/-- Each `Step` preserves the ledger invariant. -/
theorem ledgerInvariant_step {s s' : DbState} (h : LedgerInvariant s)
    (st : Step s s') : LedgerInvariant s' := by
  cases st with
  | submit o c f s' r hok =>
    obtain ⟨hu, ht⟩ := requestMusicGeneration_ok_frame hok
    exact ledgerInvariant_congr hu ht h
  | begin musicId => exact ledgerInvariant_congr rfl rfl h
  | complete musicId s3Url => exact ledgerInvariant_congr rfl rfl h
  | fail musicId clerkId attemptsMade attempts =>
    unfold processFailure
    by_cases hfin : isFinalAttempt attemptsMade attempts = true
    · rw [if_pos hfin]
      exact ledgerInvariant_handleFailure musicId clerkId h
    · rw [if_neg hfin]
      exact h
  | handleFail musicId clerkId =>
    exact ledgerInvariant_handleFailure musicId clerkId h

/-- `FailedZero` transfers along a per-element update of the music rows. -/
theorem failedZero_of_map {musics : List Music} (g : Music → Music)
    (h : ∀ m ∈ musics, (g m).status = .FAILED → (g m).creditsUsed = 0) :
    ∀ m ∈ musics.map g, m.status = .FAILED → m.creditsUsed = 0 := by
  intro m hm
  rw [List.mem_map] at hm
  obtain ⟨m0, hm0, rfl⟩ := hm
  exact h m0 hm0

/-- `updateMusicStatus` with a non-FAILED status preserves `FailedZero`. -/
theorem failedZero_updateMusicStatus {s : DbState} (musicId : String)
    (status : MusicStatus) (hs : status ≠ .FAILED) (h : FailedZero s) :
    FailedZero (updateMusicStatus s musicId status) := by
  apply failedZero_of_map
  intro m hm
  by_cases hid : m.id = musicId
  · simp only [if_pos hid]
    intro hf
    exact absurd hf hs
  · simp only [if_neg hid]
    exact h m hm

/-- `completeProcessing` preserves `FailedZero`. -/
theorem failedZero_completeProcessing {s : DbState} (musicId s3Url : String)
    (h : FailedZero s) : FailedZero (completeProcessing s musicId s3Url) := by
  apply failedZero_of_map
  intro m hm
  by_cases hid : m.id = musicId
  · simp only [if_pos hid]
    intro hf
    cases hf
  · simp only [if_neg hid]
    exact h m hm

/-- `handleGenerationFailure` preserves `FailedZero`: the only write that
sets FAILED also sets `creditsUsed = 0`. -/
theorem failedZero_handleFailure {s : DbState} (musicId clerkId : String)
    (h : FailedZero s) :
    FailedZero (handleGenerationFailure s musicId clerkId) := by
  unfold handleGenerationFailure
  cases hg : getUserByClerkId s clerkId with
  | error e => exact h
  | ok user =>
    cases hf : s.musics.find? (fun m => m.id = musicId) with
    | none => exact h
    | some music =>
      by_cases hst : music.status = .FAILED
      · simp only [hst, if_pos rfl]
        exact h
      · simp only [if_neg hst]
        have hmusics :
            (if 0 < music.creditsUsed then
              refundCredits s user.id music.creditsUsed
                ("Refund for failed generation: " ++ music.name)
            else s).musics = s.musics := by
          split <;> rfl
        intro m hm
        rw [hmusics] at hm
        revert m hm
        apply failedZero_of_map
        intro m hm
        by_cases hid : m.id = musicId
        · simp only [if_pos hid]
          trivial
        · simp only [if_neg hid]
          exact h m hm

/-- Each `Step` preserves `FailedZero`. -/
theorem failedZero_step {s s' : DbState} (h : FailedZero s) (st : Step s s') :
    FailedZero s' := by
  cases st with
  | submit o c f s' r hok =>
    rw [requestMusicGeneration_ok_iff] at hok
    obtain ⟨user, _, rfl, _⟩ := hok
    intro m hm hmf
    rw [List.mem_append] at hm
    cases hm with
    | inl hm => exact h m hm hmf
    | inr hm =>
      rw [List.mem_singleton] at hm
      subst hm
      cases hmf
  | begin musicId =>
    exact failedZero_updateMusicStatus musicId .GENERATING (by simp) h
  | complete musicId s3Url => exact failedZero_completeProcessing musicId s3Url h
  | fail musicId clerkId attemptsMade attempts =>
    unfold processFailure
    by_cases hfin : isFinalAttempt attemptsMade attempts = true
    · rw [if_pos hfin]
      exact failedZero_handleFailure musicId clerkId h
    · rw [if_neg hfin]
      exact h
  | handleFail musicId clerkId => exact failedZero_handleFailure musicId clerkId h

/-! ## C1: the cached-balance ledger invariant -/

/-- C1: for every user and at every observable state reachable by any
sequence of submit, worker-completion, and failure-handling operations, the
user's cached credit balance equals the sum of the amounts of that user's
COMPLETED transactions. -/
theorem c1_cached_balance_equals_completed_sum (s s' : DbState)
    (hinv : LedgerInvariant s) (hr : Reachable s s') : LedgerInvariant s' := by
  induction hr with
  | refl => exact hinv
  | tail _ st ih => exact ledgerInvariant_step ih st

/-- A concrete state satisfying the ledger invariant: balance 7 against a
COMPLETED +10 purchase and a COMPLETED -3 deduction, with a GENERATING job
holding 3 credits. -/
def wLedgerS0 : DbState :=
  { users := [{ id := "u1", clerkId := "c1", creditBalance := 7 }]
    transactions :=
      [{ userId := "u1", type := .PURCHASE, amount := 10,
         description := "purchase", status := .COMPLETED },
       { userId := "u1", type := .DEDUCTION, amount := -3,
         description := "deduct", status := .COMPLETED }]
    musics :=
      [{ id := "m1", userId := "u1", name := "song", prompt := "p",
         lengthMs := 150000, status := .GENERATING, creditsUsed := 3,
         audioUrl := none }]
    pricingTiers := [{ provider := .ELEVENLABS, creditsPerMinute := 1,
                       isActive := true, isDefault := true }] }

/-- Witness for C1: the invariant holds at `wLedgerS0` and is preserved
across a final-attempt failure (which refunds 3 credits). -/
theorem c1_witness :
    LedgerInvariant wLedgerS0 ∧
    LedgerInvariant (processFailure wLedgerS0 "m1" "c1" 1 2) :=
  ⟨by decide,
   c1_cached_balance_equals_completed_sum wLedgerS0 _ (by decide)
     (Reachable.tail (Reachable.refl wLedgerS0)
       (Step.fail wLedgerS0 "m1" "c1" 1 2))⟩

/-! ## C5: a FAILED job always has creditsUsed = 0 -/

/-- C5: for every job whose status is FAILED in a state reachable from a
state satisfying the invariant, its `creditsUsed` equals 0 — the refund and
the `status = FAILED`, `creditsUsed = 0` write happen in the same atomic
`handleGenerationFailure` transaction, the only operation that produces
FAILED. -/
theorem c5_failed_job_has_zero_credits (s s' : DbState) (hz : FailedZero s)
    (hr : Reachable s s') : FailedZero s' := by
  induction hr with
  | refl => exact hz
  | tail _ st ih => exact failedZero_step ih st

/-- Witness for C5: starting from `wLedgerS0` (no FAILED job), the state
after a final-attempt failure still satisfies `FailedZero` — the job that
just turned FAILED has `creditsUsed = 0`. -/
theorem c5_witness :
    FailedZero wLedgerS0 ∧
    FailedZero (processFailure wLedgerS0 "m1" "c1" 1 2) :=
  ⟨by decide,
   c5_failed_job_has_zero_credits wLedgerS0 _ (by decide)
     (Reachable.tail (Reachable.refl wLedgerS0)
       (Step.fail wLedgerS0 "m1" "c1" 1 2))⟩

/-- `find?` commutes with a map that does not change the tested field. -/
theorem find?_map_of_pred {α : Type} (l : List α) (g : α → α) (p : α → Bool)
    (hg : ∀ a, p (g a) = p a) : (l.map g).find? p = (l.find? p).map g := by
  rw [List.find?_map]
  have hp : p ∘ g = p := funext hg
  rw [hp]

/-- Invoking the failure handler on a job that is already FAILED changes
nothing at all: the guard returns before any write. -/
theorem handleFailure_noop_of_failed {s : DbState} {musicId : String}
    (clerkId : String) (hst : statusOf s musicId = some .FAILED) :
    handleGenerationFailure s musicId clerkId = s := by
  unfold handleGenerationFailure
  cases hg : getUserByClerkId s clerkId with
  | error e => rfl
  | ok user =>
    unfold statusOf at hst
    cases hf : s.musics.find? (fun m => m.id = musicId) with
    | none => rfl
    | some music =>
      rw [hf] at hst
      have hst' : music.status = .FAILED := by simpa using hst
      simp [hst']

/-- After one invocation of the failure handler, either nothing changed or
the targeted job is FAILED. -/
theorem handleFailure_fixes (s : DbState) (musicId clerkId : String) :
    handleGenerationFailure s musicId clerkId = s ∨
    statusOf (handleGenerationFailure s musicId clerkId) musicId
      = some .FAILED := by
  unfold handleGenerationFailure
  cases hg : getUserByClerkId s clerkId with
  | error e => exact Or.inl rfl
  | ok user =>
    cases hf : s.musics.find? (fun m => m.id = musicId) with
    | none => exact Or.inl rfl
    | some music =>
      by_cases hst : music.status = .FAILED
      · left
        simp [hst]
      · right
        simp only [if_neg hst]
        have hid : music.id = musicId := by simpa using List.find?_some hf
        have hmusics :
            (if 0 < music.creditsUsed then
              refundCredits s user.id music.creditsUsed
                ("Refund for failed generation: " ++ music.name)
            else s).musics = s.musics := by
          split <;> rfl
        unfold statusOf
        simp only [hmusics]
        rw [find?_map_of_pred]
        · rw [hf]
          simp [hid]
        · intro a
          by_cases h : a.id = musicId <;> simp [h]

/-! ## C6: terminal statuses under later operations -/

/-- `beginProcessing` rewrites the status of the targeted job (whatever it
was) to GENERATING. -/
theorem statusOf_beginProcessing (s : DbState) (musicId : String) :
    statusOf (beginProcessing s musicId) musicId =
      (statusOf s musicId).map (fun _ => .GENERATING) := by
  unfold statusOf beginProcessing updateMusicStatus
  rw [find?_map_of_pred]
  · cases hfind : s.musics.find? (fun m => decide (m.id = musicId)) with
    | none => rfl
    | some m =>
      have hm : m.id = musicId := by
        have := List.find?_some hfind
        simpa using this
      simp [hm]
  · intro a
    by_cases h : a.id = musicId <;> simp [h]

/-- A state with one COMPLETED job, used to exhibit that terminal statuses
are not immutable under worker re-processing. -/
def wTerminalState : DbState :=
  { users := [{ id := "u1", clerkId := "c1", creditBalance := 7 }]
    transactions := []
    musics :=
      [{ id := "m1", userId := "u1", name := "song", prompt := "p",
         lengthMs := 150000, status := .COMPLETED, creditsUsed := 3,
         audioUrl := some "https://b.s3.amazonaws.com/music/song.mp3" }]
    pricingTiers := [] }

/-- C6 counterexample: a job whose status is COMPLETED changes again under a
later operation — re-processing of a redelivered queue message starts with an
unconditional `updateMusicStatus(musicId, 'GENERATING')` (there is no status
guard in `generateMusic`), so the COMPLETED status is overwritten. -/
theorem c6_counterexample :
    statusOf wTerminalState "m1" = some .COMPLETED ∧
    Step wTerminalState (beginProcessing wTerminalState "m1") ∧
    statusOf (beginProcessing wTerminalState "m1") "m1" = some .GENERATING :=
  ⟨by decide, Step.begin wTerminalState "m1", by decide⟩

/-- C6 amended: the failure handler never changes a job that is already
FAILED, but the worker's status writes carry no guard on the previous
status — re-processing of a redelivered message rewrites any job's status
(terminal or not) back to GENERATING before calling the provider, and the
completion write sets COMPLETED unconditionally — so terminal statuses can
change again under later operations. -/
theorem c6_amended_terminal_behavior (s : DbState)
    (musicId clerkId s3Url : String) :
    (statusOf s musicId = some .FAILED →
      handleGenerationFailure s musicId clerkId = s) ∧
    (∀ m ∈ (beginProcessing s musicId).musics, m.id = musicId →
      m.status = .GENERATING) ∧
    (∀ m ∈ (completeProcessing s musicId s3Url).musics, m.id = musicId →
      m.status = .COMPLETED) := by
  refine ⟨fun hst => handleFailure_noop_of_failed clerkId hst, ?_, ?_⟩
  · intro m hm hid
    unfold beginProcessing updateMusicStatus at hm
    simp only [List.mem_map] at hm
    obtain ⟨m0, hm0, rfl⟩ := hm
    by_cases h0 : m0.id = musicId
    · simp only [if_pos h0]
    · simp only [if_neg h0] at hid ⊢
      exact absurd hid h0
  · intro m hm hid
    unfold completeProcessing at hm
    simp only [List.mem_map] at hm
    obtain ⟨m0, hm0, rfl⟩ := hm
    by_cases h0 : m0.id = musicId
    · simp only [if_pos h0]
    · simp only [if_neg h0] at hid ⊢
      exact absurd hid h0

/-- A state with one FAILED job, for the C6 witness. -/
def wFailedState : DbState :=
  { users := [{ id := "u1", clerkId := "c1", creditBalance := 10 }]
    transactions := []
    musics :=
      [{ id := "m2", userId := "u1", name := "song2", prompt := "p2",
         lengthMs := 60000, status := .FAILED, creditsUsed := 0,
         audioUrl := none }]
    pricingTiers := [] }

/-- Witness for the amended C6 at a concrete FAILED job. -/
theorem c6_witness :
    handleGenerationFailure wFailedState "m2" "c1" = wFailedState ∧
    (∀ m ∈ (beginProcessing wFailedState "m2").musics, m.id = "m2" →
      m.status = .GENERATING) ∧
    (∀ m ∈ (completeProcessing wFailedState "m2" "https://u").musics,
      m.id = "m2" → m.status = .COMPLETED) :=
  ⟨(c6_amended_terminal_behavior wFailedState "m2" "c1" "https://u").1
     (by decide),
   (c6_amended_terminal_behavior wFailedState "m2" "c1" "https://u").2.1,
   (c6_amended_terminal_behavior wFailedState "m2" "c1" "https://u").2.2⟩

/-! ## C3: retry policy and when the failure handler runs -/

/-- C3: the attempt cap is 2 with exponential backoff from a 30000 ms base;
a provider failure on a non-final attempt leaves the whole database state as
`beginProcessing` left it — the job's status is GENERATING and the ledger
(transactions and user balances) is untouched — and the Failure Handler is
invoked exactly on the final failed attempt. -/
theorem c3_retry_policy :
    DEFAULT_MUSIC_GENERATION_JOB_OPTIONS.attempts = 2 ∧
    DEFAULT_MUSIC_GENERATION_JOB_OPTIONS.backoffType = "exponential" ∧
    DEFAULT_MUSIC_GENERATION_JOB_OPTIONS.backoffDelayMs = 30000 ∧
    ∀ (s : DbState) (musicId clerkId : String) (attemptsMade : Nat),
      (isFinalAttempt attemptsMade DEFAULT_MUSIC_GENERATION_JOB_OPTIONS.attempts
          = false →
        failedAttempt s musicId clerkId attemptsMade
            DEFAULT_MUSIC_GENERATION_JOB_OPTIONS.attempts
          = beginProcessing s musicId ∧
        (failedAttempt s musicId clerkId attemptsMade
            DEFAULT_MUSIC_GENERATION_JOB_OPTIONS.attempts).transactions
          = s.transactions ∧
        (failedAttempt s musicId clerkId attemptsMade
            DEFAULT_MUSIC_GENERATION_JOB_OPTIONS.attempts).users = s.users ∧
        statusOf (failedAttempt s musicId clerkId attemptsMade
            DEFAULT_MUSIC_GENERATION_JOB_OPTIONS.attempts) musicId
          = (statusOf s musicId).map (fun _ => .GENERATING)) ∧
      (isFinalAttempt attemptsMade DEFAULT_MUSIC_GENERATION_JOB_OPTIONS.attempts
          = true →
        failedAttempt s musicId clerkId attemptsMade
            DEFAULT_MUSIC_GENERATION_JOB_OPTIONS.attempts
          = handleGenerationFailure (beginProcessing s musicId) musicId clerkId) := by
  refine ⟨rfl, rfl, rfl, ?_⟩
  intro s musicId clerkId attemptsMade
  constructor
  · intro hfin
    have heq : failedAttempt s musicId clerkId attemptsMade
        DEFAULT_MUSIC_GENERATION_JOB_OPTIONS.attempts
        = beginProcessing s musicId := by
      unfold failedAttempt processFailure
      rw [hfin]
      simp
    refine ⟨heq, ?_, ?_, ?_⟩
    · rw [heq]
      rfl
    · rw [heq]
      rfl
    · rw [heq]
      exact statusOf_beginProcessing s musicId
  · intro hfin
    unfold failedAttempt processFailure
    rw [hfin]
    simp

/-- Witness for C3: a first-attempt failure on the concrete state only marks
the job GENERATING; a second-attempt (final) failure hands off to the
failure handler. -/
theorem c3_witness :
    failedAttempt wLedgerS0 "m1" "c1" 0
        DEFAULT_MUSIC_GENERATION_JOB_OPTIONS.attempts
      = beginProcessing wLedgerS0 "m1" ∧
    failedAttempt wLedgerS0 "m1" "c1" 1
        DEFAULT_MUSIC_GENERATION_JOB_OPTIONS.attempts
      = handleGenerationFailure (beginProcessing wLedgerS0 "m1") "m1" "c1" :=
  ⟨((c3_retry_policy.2.2.2 wLedgerS0 "m1" "c1" 0).1 (by decide)).1,
   (c3_retry_policy.2.2.2 wLedgerS0 "m1" "c1" 1).2 (by decide)⟩

/-! ## C4: idempotence of the failure handler -/

/-- C4: invoking the failure handler twice for the same job id changes the
user's balance only once — the second invocation finds the job FAILED (or
finds nothing to do) and returns the database state bit-for-bit unchanged:
no refund transaction, no balance change, no job-row change. -/
theorem c4_handle_failure_idempotent (s : DbState) (musicId clerkId : String) :
    handleGenerationFailure (handleGenerationFailure s musicId clerkId)
        musicId clerkId
      = handleGenerationFailure s musicId clerkId := by
  cases handleFailure_fixes s musicId clerkId with
  | inl h =>
    rw [h]
    exact h
  | inr h => exact handleFailure_noop_of_failed clerkId h

/-! ## C2: submissions with insufficient balance -/

/-- Scenario B's state: the user holds 2 credits. -/
def wPoorState : DbState :=
  { users := [{ id := "u1", clerkId := "c1", creditBalance := 2 }]
    transactions :=
      [{ userId := "u1", type := .PURCHASE, amount := 2,
         description := "purchase", status := .COMPLETED }]
    musics := []
    pricingTiers := [{ provider := .ELEVENLABS, creditsPerMinute := 1,
                       isActive := true, isDefault := true }] }

/-- Scenario B's request: 150000 ms, which costs 3 credits. -/
def wCostlyRequest : GenerateMusicDto :=
  { name := "song", prompt := "a prompt", lengthMs := some 150000,
    outputFormat := none, modelId := none }

/-- C2 (code-level behavior at the failing input): with balance 2 and a
3-credit request, `requestMusicGeneration` does not reject — it returns
success and creates the Music row (status GENERATING, creditsUsed 3) while
leaving users and transactions untouched, because the balance check is an
unimplemented TODO in the source.  The repository's own
`CreditsService.deductCredits`, which this path never calls, would have
raised `InsufficientCredits(required 3, available 2, shortfall 1)` exactly
as the claim describes. -/
theorem c2_insufficient_balance_not_enforced :
    requestMusicGeneration wPoorState wCostlyRequest "c1" "m1"
      = .ok ({ users := wPoorState.users
               transactions := wPoorState.transactions
               musics := [{ id := "m1", userId := "u1", name := "song",
                            prompt := "a prompt", lengthMs := 150000,
                            status := .GENERATING, creditsUsed := 3,
                            audioUrl := none }]
               pricingTiers := wPoorState.pricingTiers },
             { musicId := "m1", name := "song", prompt := "a prompt",
               status := .GENERATING, lengthMs := 150000 }) ∧
    deductCredits wPoorState "u1" 3 "Music generation: song"
      = .error (.insufficientCredits
          { required := 3, available := 2, shortfall := 1 }) :=
  ⟨rfl, rfl⟩

/-! ## C7: the cost formula -/

/-- `jsCeilDiv a 60000` is exactly the rational ceiling `⌈a / 60000⌉`. -/
theorem jsCeilDiv_eq_ceil (a : Nat) :
    ((jsCeilDiv a 60000 : ℤ)) = ⌈(a : ℚ) / 60000⌉ := by
  have h60 : (0:ℚ) < 60000 := by norm_num
  rw [eq_comm, Int.ceil_eq_iff]
  have h3 : ((jsCeilDiv a 60000 : ℤ) - 1) * 60000 < (a : ℤ) := by
    unfold jsCeilDiv
    omega
  have h2 : (a : ℤ) ≤ (jsCeilDiv a 60000 : ℤ) * 60000 := by
    unfold jsCeilDiv
    omega
  constructor
  · rw [lt_div_iff h60]
    exact_mod_cast h3
  · rw [div_le_iff h60]
    exact_mod_cast h2

/-- A state whose active default pricing tier charges 2 credits per minute. -/
def wTier2State : DbState :=
  { users := [{ id := "u1", clerkId := "c1", creditBalance := 10 }]
    transactions :=
      [{ userId := "u1", type := .PURCHASE, amount := 10,
         description := "purchase", status := .COMPLETED }]
    musics := []
    pricingTiers := [{ provider := .ELEVENLABS, creditsPerMinute := 2,
                       isActive := true, isDefault := true }] }

/-- A 60000 ms request. -/
def wMinuteRequest : GenerateMusicDto :=
  { name := "song", prompt := "a prompt", lengthMs := some 60000,
    outputFormat := none, modelId := none }

/-- C7 (code-level behavior at the failing input): with an active default
tier of 2 credits per minute, a 60000 ms submission records
`creditsUsed = 1` — the hardcoded `Math.ceil(lengthMs / 60000)` — while the
tier-based formula documented in the repository's own
MUSIC_GENERATION_FLOW.md and implemented by
`CreditsService.calculateCreditsNeeded` (which the submission path never
calls) yields 2. -/
theorem c7_hardcoded_cost_ignores_tier :
    requestMusicGeneration wTier2State wMinuteRequest "c1" "m1"
      = .ok ({ users := wTier2State.users
               transactions := wTier2State.transactions
               musics := [{ id := "m1", userId := "u1", name := "song",
                            prompt := "a prompt", lengthMs := 60000,
                            status := .GENERATING, creditsUsed := 1,
                            audioUrl := none }]
               pricingTiers := wTier2State.pricingTiers },
             { musicId := "m1", name := "song", prompt := "a prompt",
               status := .GENERATING, lengthMs := 60000 }) ∧
    calculateCreditsNeeded wTier2State 60000 .ELEVENLABS = .ok 2 ∧
    (1 : ℤ) ≠ 2 := by
  refine ⟨rfl, ?_, by decide⟩
  show Except.ok ⌈((60000 : Nat) : ℚ) / 60000 * (2:ℚ)⌉ = Except.ok 2
  congr 1
  rw [Int.ceil_eq_iff]
  norm_num

/-- The credits recorded on the created job equal the hardcoded
`Math.ceil((lengthMs || 10000) / 60000)` — 1 credit per 60000 ms, ignoring
the PricingTier table.  This always rounds up (it is at least the exact
rational cost `lengthMs / 60000`), and it coincides with the tier-based
formula exactly when the active default tier's rate is the shipped default
of 1 credit per minute. -/
theorem submitted_cost_is_hardcoded_ceil (s : DbState) (o : GenerateMusicDto)
    (c f : String) (s' : DbState) (r : MusicGenerationRequestResponse)
    (hok : requestMusicGeneration s o c f = .ok (s', r)) :
    ∃ m, s'.musics.getLast? = some m ∧
      m.creditsUsed = (jsCeilDiv (jsOrNum o.lengthMs 10000) 60000 : ℤ) ∧
      ((jsOrNum o.lengthMs 10000 : ℚ) / 60000
        ≤ (jsCeilDiv (jsOrNum o.lengthMs 10000) 60000 : ℚ)) ∧
      m.creditsUsed = ⌈((jsOrNum o.lengthMs 10000 : ℚ) / 60000) * 1⌉ := by
  rw [requestMusicGeneration_ok_iff] at hok
  obtain ⟨user, _, rfl, _⟩ := hok
  refine ⟨{ id := f
            userId := user.id
            name := o.name
            prompt := o.prompt
            lengthMs := jsOrNum o.lengthMs 10000
            status := .GENERATING
            creditsUsed := (jsCeilDiv (jsOrNum o.lengthMs 10000) 60000 : ℤ)
            audioUrl := none }, by simp, rfl, ?_, ?_⟩
  · have h60 : (0:ℚ) < 60000 := by norm_num
    rw [div_le_iff h60]
    have h2 : ((jsOrNum o.lengthMs 10000 : Nat) : ℤ)
        ≤ (jsCeilDiv (jsOrNum o.lengthMs 10000) 60000 : ℤ) * 60000 := by
      unfold jsCeilDiv
      omega
    exact_mod_cast h2
  · rw [mul_one]
    exact jsCeilDiv_eq_ceil (jsOrNum o.lengthMs 10000)

/-- Concrete instance: the 150000 ms submission records
`creditsUsed = ceil(150000/60000) = 3`. -/
theorem submitted_cost_is_hardcoded_ceil_example :
    ∃ m, ({ wPoorState with
            musics := [{ id := "m1", userId := "u1", name := "song",
                         prompt := "a prompt", lengthMs := 150000,
                         status := .GENERATING, creditsUsed := 3,
                         audioUrl := none }] } : DbState).musics.getLast?
        = some m ∧
      m.creditsUsed = (jsCeilDiv (jsOrNum wCostlyRequest.lengthMs 10000) 60000 : ℤ) ∧
      ((jsOrNum wCostlyRequest.lengthMs 10000 : ℚ) / 60000
        ≤ (jsCeilDiv (jsOrNum wCostlyRequest.lengthMs 10000) 60000 : ℚ)) ∧
      m.creditsUsed = ⌈((jsOrNum wCostlyRequest.lengthMs 10000 : ℚ) / 60000) * 1⌉ :=
  submitted_cost_is_hardcoded_ceil wPoorState wCostlyRequest "c1" "m1" _ _ rfl

/-! ## C8: queue-level dedup of duplicate publishes -/

/-- No two queued jobs share a job id. -/
def UniqueJobIds (q : MusicQueue) : Prop :=
  q.jobs.Pairwise (fun a b => a.jobId ≠ b.jobId)

instance (q : MusicQueue) : Decidable (UniqueJobIds q) := by
  unfold UniqueJobIds
  infer_instance

/-- C8: publishing a work item is never an error for the caller; it keeps
at most one queued job per job id; and when a job with the same
`music-<musicId>` key is already queued, the publish is dropped as a no-op
(the `BULLMQDuplicateJob` error is swallowed by the listener). -/
theorem c8_duplicate_publish_is_noop (q : MusicQueue)
    (data : GenerateMusicJobData) (hq : UniqueJobIds q) :
    ∃ q', handleMusicGenerationRequested q data = .ok q' ∧ UniqueJobIds q' ∧
      (q.jobs.any (fun j => j.jobId = "music-" ++ data.musicId) = true →
        q' = q) := by
  unfold handleMusicGenerationRequested queueAdd
  by_cases hdup : q.jobs.any (fun j => j.jobId = "music-" ++ data.musicId) = true
  · refine ⟨q, ?_, hq, fun _ => rfl⟩
    rw [if_pos hdup]
    rfl
  · rw [if_neg hdup]
    refine ⟨_, rfl, ?_, fun habs => absurd habs hdup⟩
    unfold UniqueJobIds at hq ⊢
    rw [List.pairwise_append]
    refine ⟨hq, List.pairwise_singleton _ _, ?_⟩
    intro a ha b hb
    rw [List.mem_singleton] at hb
    subst hb
    rw [List.any_eq_true] at hdup
    push_neg at hdup
    intro heq
    exact absurd (by simp [heq]) (hdup a ha)

/-- A queue already holding the job for music id `m1`. -/
def wQueue : MusicQueue :=
  { jobs := [{ jobId := "music-m1"
               data := { musicId := "m1", userId := "c1", name := "song",
                         prompt := "p", lengthMs := some 150000 } }] }

/-- The duplicate publish payload for music id `m1`. -/
def wJobData : GenerateMusicJobData :=
  { musicId := "m1", userId := "c1", name := "song", prompt := "p",
    lengthMs := some 150000 }

/-- Witness for C8 at a queue that already holds the job id. -/
theorem c8_witness :
    ∃ q', handleMusicGenerationRequested wQueue wJobData = .ok q' ∧
      UniqueJobIds q' ∧
      (wQueue.jobs.any (fun j => j.jobId = "music-" ++ wJobData.musicId) = true →
        q' = wQueue) :=
  c8_duplicate_publish_is_noop wQueue wJobData (by decide)

/-! ## C9: not-found and not-yours are indistinguishable -/

/-- When no music row matches both the id and the caller's user id,
`getMusicStatus` throws `Music record not found`. -/
theorem getMusicStatus_notFound {s : DbState} {user : User}
    {clerkId j : String} (hu : getUserByClerkId s clerkId = .ok user)
    (h : ∀ m ∈ s.musics, ¬(m.id = j ∧ m.userId = user.id)) :
    getMusicStatus s j clerkId = .error "Music record not found" := by
  have hf : List.find?
      (fun m => decide (m.id = j) && decide (m.userId = user.id)) s.musics
      = none := by
    rw [List.find?_eq_none]
    intro m hm
    simp only [Bool.and_eq_true, decide_eq_true_eq]
    intro hand
    exact h m hm hand
  unfold getMusicStatus
  rw [hu]
  simp [hf]

/-- C9: for a caller resolving to `user`, the observable result of
`getMusicStatus` on a job id that does not exist at all equals the
observable result on a job id that exists but belongs to a different user:
both are the same `Music record not found` error, so the caller learns
nothing about the job's existence. -/
theorem c9_ownership_indistinguishable (s : DbState) (user : User)
    (clerkId j1 j2 : String) (hu : getUserByClerkId s clerkId = .ok user)
    (h1 : ∀ m ∈ s.musics, m.id ≠ j1)
    (_h2 : ∃ m ∈ s.musics, m.id = j2)
    (h3 : ∀ m ∈ s.musics, m.id = j2 → m.userId ≠ user.id) :
    getMusicStatus s j1 clerkId = getMusicStatus s j2 clerkId ∧
    getMusicStatus s j1 clerkId = .error "Music record not found" := by
  have e1 : getMusicStatus s j1 clerkId = .error "Music record not found" :=
    getMusicStatus_notFound hu (fun m hm hand => h1 m hm hand.1)
  have e2 : getMusicStatus s j2 clerkId = .error "Music record not found" :=
    getMusicStatus_notFound hu (fun m hm hand => h3 m hm hand.1 hand.2)
  exact ⟨e1.trans e2.symm, e1⟩

/-- Two users; the only music row belongs to the second. -/
def wTwoUserState : DbState :=
  { users := [{ id := "u1", clerkId := "c1", creditBalance := 5 },
              { id := "u2", clerkId := "c2", creditBalance := 5 }]
    transactions := []
    musics :=
      [{ id := "m2", userId := "u2", name := "song", prompt := "p",
         lengthMs := 60000, status := .COMPLETED, creditsUsed := 1,
         audioUrl := some "https://b.s3.amazonaws.com/music/song.mp3" }]
    pricingTiers := [] }

/-- Witness for C9: for caller `c1`, the nonexistent id `zzz` and the id
`m2` owned by `u2` produce identical results. -/
theorem c9_witness :
    getMusicStatus wTwoUserState "zzz" "c1"
      = getMusicStatus wTwoUserState "m2" "c1" ∧
    getMusicStatus wTwoUserState "zzz" "c1"
      = .error "Music record not found" :=
  c9_ownership_indistinguishable wTwoUserState
    { id := "u1", clerkId := "c1", creditBalance := 5 } "c1" "zzz" "m2"
    rfl (by decide) (by decide) (by decide)

/-! ## C10: presigned download URLs -/

/-- Elimination form of a successful `getMusicStatus`: the caller resolved,
and some row matching both the id and the caller's user id produced the
response. -/
theorem getMusicStatus_ok_elim {s : DbState} {j c : String}
    {resp : MusicStatusResponse} (h : getMusicStatus s j c = .ok resp) :
    ∃ user music, getUserByClerkId s c = .ok user ∧ music ∈ s.musics ∧
      music.id = j ∧ music.userId = user.id ∧
      resp = { musicId := music.id
               name := music.name
               prompt := music.prompt
               status := music.status
               lengthMs := music.lengthMs
               audioUrl := jsOrNullStr music.audioUrl } := by
  unfold getMusicStatus at h
  cases hu : getUserByClerkId s c with
  | error e =>
    rw [hu] at h
    simp at h
  | ok user =>
    simp only [hu] at h
    cases hf : s.musics.find? (fun m => m.id = j ∧ m.userId = user.id) with
    | none =>
      rw [hf] at h
      simp at h
    | some music =>
      rw [hf] at h
      have hmem := List.mem_of_find?_eq_some hf
      have hpred := List.find?_some hf
      simp only [decide_eq_true_eq] at hpred
      simp only [Except.ok.injEq] at h
      exact ⟨user, music, rfl, hmem, hpred.1, hpred.2, h.symm⟩

/-- C10: a presigned URL is issued only when the caller owns the music row,
its status is COMPLETED, and its artifact URL is set (non-null after the
`|| null` normalization); whenever `getDownloadUrl` succeeds, the returned
expiry is exactly 3600 seconds.  Contrapositively, in every other case the
call fails with an error and no URL is issued. -/
theorem c10_download_requires_owned_completed_artifact
    (presign : String → String → Nat → String) (s : DbState)
    (musicId clerkId : String) (resp : MusicDownloadResponse)
    (hok : getDownloadUrl presign s musicId clerkId = .ok resp) :
    (∃ user music, getUserByClerkId s clerkId = .ok user ∧
      music ∈ s.musics ∧ music.id = musicId ∧ music.userId = user.id ∧
      music.status = .COMPLETED ∧ jsOrNullStr music.audioUrl ≠ none) ∧
    resp.expiresIn = 3600 := by
  unfold getDownloadUrl at hok
  cases hms : getMusicStatus s musicId clerkId with
  | error e =>
    rw [hms] at hok
    simp at hok
  | ok statusResp =>
    simp only [hms] at hok
    obtain ⟨user, music, hu, hmem, hid, howner, hresp⟩ :=
      getMusicStatus_ok_elim hms
    by_cases hst : statusResp.status = .COMPLETED
    · rw [if_neg (by simpa using hst)] at hok
      cases haud : statusResp.audioUrl with
      | none =>
        rw [haud] at hok
        simp at hok
      | some audioUrl =>
        simp only [haud] at hok
        refine ⟨⟨user, music, hu, hmem, hid, howner, ?_, ?_⟩, ?_⟩
        · rw [hresp] at hst
          exact hst
        · rw [hresp] at haud
          simp at haud
          simp [haud]
        · cases hparse : parseUrl audioUrl with
          | none =>
            rw [hparse] at hok
            simp at hok
          | some pr =>
            rw [hparse] at hok
            obtain ⟨hostname, pathname⟩ := pr
            simp only [Except.ok.injEq] at hok
            rw [← hok]
    · rw [if_pos (by simpa using hst)] at hok
      simp at hok

/-- A state whose one music row is COMPLETED with a stored S3 URL, for the
C10 witness. -/
def wCompletedState : DbState :=
  { users := [{ id := "u1", clerkId := "c1", creditBalance := 5 }]
    transactions := []
    musics :=
      [{ id := "m1", userId := "u1", name := "my song", prompt := "p",
         lengthMs := 150000, status := .COMPLETED, creditsUsed := 3,
         audioUrl := some
           "https://songy-wongy-music.s3.us-east-1.amazonaws.com/music/t_my_song.mp3" }]
    pricingTiers := [] }

/-- Witness for C10 at a concrete successful download. -/
theorem c10_witness :
    (∃ user music, getUserByClerkId wCompletedState "c1" = .ok user ∧
      music ∈ wCompletedState.musics ∧ music.id = "m1" ∧
      music.userId = user.id ∧ music.status = .COMPLETED ∧
      jsOrNullStr music.audioUrl ≠ none) ∧
    ({ downloadUrl := "songy-wongy-music|music/t_my_song.mp3"
       expiresIn := 3600
       fileName := "t my song.mp3" } : MusicDownloadResponse).expiresIn
      = 3600 :=
  c10_download_requires_owned_completed_artifact
    (fun b k _ => b ++ "|" ++ k) wCompletedState "m1" "c1"
    { downloadUrl := "songy-wongy-music|music/t_my_song.mp3"
      expiresIn := 3600
      fileName := "t my song.mp3" }
    rfl

end SongyWongy
